import Mathlib

/-!
# Verification of the HSC catalog-query helper layer

Shallow embedding of the catalog-query helper functions that appear in the
STScI Hubble Source Catalog use-case notebooks (`cat2url`, `checklegal`,
`hscsearch`, `hsccone`, `hscmetadata`, and the `hcv*` variants), together
with theorems about their validation, URL-construction and request-issuing
behaviour.

Python strings become `String`, numbers passed as query parameters become
`ℚ`, dictionaries become ordered association lists (`List (String × Value)`),
`raise ValueError(msg)` becomes `Except.error (PyError.valueError msg)`,
and the `requests` library is modelled by a `Net` oracle mapping each issued
request to a response.  Every helper returns, besides its Python result, the
list of HTTP requests it issued, in order, so that fail-fast properties
("no network call before validation") are statable.
-/

namespace STScI

/-- A value that can appear in the query-parameter dictionary (`**kw` in the
Python source): either a number (ra/dec/radius, range qualifiers such as
`numimages.gte`) or a string (the serialized `columns` list). -/
inductive Value where
  | num : ℚ → Value
  | str : String → Value
deriving DecidableEq, Repr

/-- An HTTP GET request as issued by `requests.get(url, params=data)`:
the URL and the ordered parameter dictionary. -/
structure Request where
  url : String
  params : List (String × Value)
deriving DecidableEq, Repr

/-- An HTTP response: status code and body text. -/
structure HttpResponse where
  status : Nat
  text : String
deriving DecidableEq, Repr

/-- One column-metadata record, as produced from the JSON array returned by
the `/metadata` endpoint (`{name, type, description}`). -/
structure MetaEntry where
  name : String
  type : String
  description : String
deriving DecidableEq, Repr

/-- The network oracle: `fetch` models `requests.get` (total: every request
gets some response), and `parseMeta` models decoding the JSON body of a
metadata response into its list of column records (`r.json()` followed by
extracting the fields). -/
structure Net where
  fetch : Request → HttpResponse
  parseMeta : String → List MetaEntry

/-- The errors the helpers can surface: `valueError` for the Python
`raise ValueError(msg)` sites (the spec's MissingParameters /
UnsupportedFormat / InvalidCombination / UnknownColumn, distinguished by
their messages) and `httpError` for `requests.Response.raise_for_status`
(the spec's UpstreamHTTPError). -/
inductive PyError where
  | valueError : String → PyError
  | httpError : Nat → PyError
deriving DecidableEq, Repr

/-- A parsed delimited-text table: header row plus data rows. -/
structure Table where
  header : List String
  rows : List (List String)
deriving DecidableEq, Repr

/-- The result of a successful search, by format: `json` holds the raw body
returned for `r.json()`, `text` holds `r.text` (csv/votable), and `table`
holds the parsed table for `format="table"`. -/
inductive SearchResult where
  | json : String → SearchResult
  | text : String → SearchResult
  | table : Table → SearchResult
deriving DecidableEq, Repr

instance {ε α : Type} [DecidableEq ε] [DecidableEq α] : DecidableEq (Except ε α) := fun x y =>
  match x, y with
  | Except.ok a, Except.ok b =>
    if h : a = b then Decidable.isTrue (congrArg Except.ok h)
    else Decidable.isFalse (fun he => h (Except.ok.inj he))
  | Except.error a, Except.error b =>
    if h : a = b then Decidable.isTrue (congrArg Except.error h)
    else Decidable.isFalse (fun he => h (Except.error.inj he))
  | Except.ok _, Except.error _ => Decidable.isFalse (fun he => Except.noConfusion he)
  | Except.error _, Except.ok _ => Decidable.isFalse (fun he => Except.noConfusion he)

/-- Python `str.lower()` (ASCII action, which is all the source relies on
for column names), written by structural recursion over the characters. -/
def pyLower (s : String) : String := ⟨s.data.map Char.toLower⟩

/-- Python `str.strip()`: drop leading and trailing whitespace. -/
def pyTrim (s : String) : String :=
  ⟨((s.data.dropWhile Char.isWhitespace).reverse.dropWhile Char.isWhitespace).reverse⟩

/-- Splitting a character list at every occurrence of a separator. -/
def splitOnAux (sep : Char) : List Char → List (List Char)
  | [] => [[]]
  | c :: rest =>
    match splitOnAux sep rest with
    | [] => [[]]
    | cur :: done => if c = sep then [] :: cur :: done else (c :: cur) :: done

/-- Python `str.split(sep)` for a one-character separator. -/
def pySplitOn (s : String) (sep : Char) : List String :=
  (splitOnAux sep s.data).map (fun l => ⟨l⟩)

/-- Models `pd.read_csv(StringIO(text))` at the granularity the notebooks
rely on: the first non-blank line is the header, each further non-blank line
is one data row, fields split on commas. -/
def parseCsv (text : String) : Table :=
  let lines := (pySplitOn text '\n').filter (fun l => decide (l ≠ ""))
  match lines with
  | [] => { header := [], rows := [] }
  | h :: rest => { header := pySplitOn h ',', rows := rest.map (fun l => pySplitOn l ',') }

/-- Python dictionary assignment `d[k] = v` on an ordered, duplicate-free
association list: update the entry in place if the key is present, else
append a new entry at the end. -/
def dictSet : List (String × Value) → String → Value → List (String × Value)
  | [], k, v => [(k, v)]
  | p :: rest, k, v => if p.1 = k then (k, v) :: rest else p :: dictSet rest k v

/-- Python dictionary lookup `d.get(k)`. -/
def dictGet : List (String × Value) → String → Option Value
  | [], _ => none
  | p :: rest, k => if p.1 = k then some p.2 else dictGet rest k

/-- The fixed catalog API base URL of the notebooks. -/
def hscapiurl : String := "https://catalogs.mast.stsci.edu/api/v0.1/hsc"

/-- `checklegal(table, release, magtype)`: checks if this combination of
table, release and magtype is acceptable; returns the `ValueError` message
on failure. -/
def checklegal (table release magtype : String) : Except String Unit :=
  let releaselist : List String := ["v2", "v3"]
  if release ∉ releaselist then
    Except.error ("Bad value for release (must be one of " ++
      String.intercalate ", " releaselist ++ ")")
  else
    let tablelist : List String :=
      if release = "v2" then ["summary", "detailed"]
      else ["summary", "detailed", "propermotions", "sourcepositions", "hcvsummary", "hcv"]
    if table ∉ tablelist then
      Except.error ("Bad value for table (for " ++ release ++ " must be one of " ++
        String.intercalate ", " tablelist ++ ")")
    else if table = "summary" then
      let magtypelist : List String := ["magaper2", "magauto"]
      if magtype ∉ magtypelist then
        Except.error ("Bad value for magtype (must be one of " ++
          String.intercalate ", " magtypelist ++ ")")
      else Except.ok ()
    else Except.ok ()

/-- `cat2url(table, release, magtype, baseurl)`: return the base URL for the
specified catalog and table (the spec's `resolve_base_url`). -/
def cat2url (table release magtype baseurl : String) : Except String String :=
  match checklegal table release magtype with
  | Except.error e => Except.error e
  | Except.ok _ =>
    if table = "summary" then
      Except.ok (baseurl ++ "/" ++ release ++ "/" ++ table ++ "/" ++ magtype)
    else
      Except.ok (baseurl ++ "/" ++ release ++ "/" ++ table)

/-- The legal (release, table, magtype) set as the specification describes
it: release v2 carries tables summary/detailed, release v3 additionally
propermotions/sourcepositions/hcvsummary/hcv, and the magtype is constrained
(to magaper2 or magauto) only for the summary table. -/
def legalCombo (table release magtype : String) : Prop :=
  ((release = "v2" ∧ (table = "summary" ∨ table = "detailed")) ∨
   (release = "v3" ∧ (table = "summary" ∨ table = "detailed" ∨ table = "propermotions" ∨
      table = "sourcepositions" ∨ table = "hcvsummary" ∨ table = "hcv"))) ∧
  (table = "summary" → (magtype = "magaper2" ∨ magtype = "magauto"))

instance (table release magtype : String) : Decidable (legalCombo table release magtype) := by
  unfold legalCombo
  infer_instance

/-- `checklegal` succeeds exactly on the legal combination set. -/
theorem checklegal_ok_iff (t r m : String) :
    checklegal t r m = Except.ok () ↔ legalCombo t r m := by
  simp only [checklegal, legalCombo]
  split_ifs with h1 h2 h3 h4 h5 h6 h7 <;>
    simp_all [List.mem_cons]

/-- C1: on every legal (release, table, magtype) combination, `cat2url`
returns `{base}/{release}/{table}` (with a trailing `/{magtype}` exactly for
the summary table); on every combination outside the legal set it returns a
`ValueError` and no URL. -/
theorem cat2url_legal_characterisation (t r m b : String) :
    (legalCombo t r m →
      cat2url t r m b = Except.ok (if t = "summary" then b ++ "/" ++ r ++ "/" ++ t ++ "/" ++ m
                                   else b ++ "/" ++ r ++ "/" ++ t))
    ∧ (¬ legalCombo t r m → (cat2url t r m b).isOk = false) := by
  constructor
  · intro h
    have hcl : checklegal t r m = Except.ok () := (checklegal_ok_iff t r m).mpr h
    simp only [cat2url, hcl]
    split <;> rfl
  · intro h
    cases hcl : checklegal t r m with
    | ok u =>
      cases u
      exact absurd ((checklegal_ok_iff t r m).mp hcl) h
    | error e =>
      simp only [cat2url, hcl]
      rfl

/-- Witness for C1: the legal combination (summary, v3, magaper2) yields the
magtype-suffixed URL, and the illegal combination (hcv, v2) yields an error. -/
theorem cat2url_legal_characterisation_witness :
    cat2url "summary" "v3" "magaper2" "base" = Except.ok "base/v3/summary/magaper2"
    ∧ (cat2url "hcv" "v2" "magaper2" "base").isOk = false := by
  constructor
  · have h := (cat2url_legal_characterisation "summary" "v3" "magaper2" "base").1 (by decide)
    simpa using h
  · exact (cat2url_legal_characterisation "hcv" "v2" "magaper2" "base").2 (by decide)

/-- The column-validation block shared verbatim by `hscsearch` and
`hcvsearch` (`if columns:` in the source): given the result of the metadata
fetch, build the lowercased name dictionary, collect the requested columns
whose lowercased, stripped form is missing from it, raise the UnknownColumn
`ValueError` naming all of them if any, and otherwise serialize the original
requested names into the bracketed comma-joined `columns` parameter. -/
def addColumns (mres : List Request × Except PyError (List MetaEntry))
    (cols : List String) (data : List (String × Value)) :
    List Request × Except PyError (List (String × Value)) :=
  match mres with
  | (mreqs, Except.error e) => (mreqs, Except.error e)
  | (mreqs, Except.ok meta) =>
    let dcols := meta.map (fun x => pyLower x.name)
    let badcols := cols.filter (fun col => decide (pyTrim (pyLower col) ∉ dcols))
    if badcols = [] then
      (mreqs, Except.ok (dictSet data "columns"
        (Value.str ("[" ++ String.intercalate "," cols ++ "]"))))
    else
      (mreqs, Except.error (PyError.valueError
        ("Some columns not found in table: " ++ String.intercalate ", " badcols)))

/-- A failed metadata fetch passes straight through column validation. -/
theorem addColumns_error (mreqs : List Request) (e : PyError) (cols : List String)
    (data : List (String × Value)) :
    addColumns (mreqs, Except.error e) cols data = (mreqs, Except.error e) := rfl

/-- When every requested column is known, column validation sets the
`columns` parameter to the bracketed comma-join of the original names. -/
theorem addColumns_good (mreqs : List Request) (meta : List MetaEntry)
    (cols : List String) (data : List (String × Value))
    (h : cols.filter (fun col => decide (pyTrim (pyLower col) ∉
      meta.map (fun x => pyLower x.name))) = []) :
    addColumns (mreqs, Except.ok meta) cols data =
      (mreqs, Except.ok (dictSet data "columns"
        (Value.str ("[" ++ String.intercalate "," cols ++ "]")))) := by
  simp only [addColumns]
  rw [if_pos h]

/-- When some requested column is unknown, column validation raises the
UnknownColumn `ValueError` listing exactly the offending entries. -/
theorem addColumns_bad (mreqs : List Request) (meta : List MetaEntry)
    (cols : List String) (data : List (String × Value))
    (h : cols.filter (fun col => decide (pyTrim (pyLower col) ∉
      meta.map (fun x => pyLower x.name))) ≠ []) :
    addColumns (mreqs, Except.ok meta) cols data =
      (mreqs, Except.error (PyError.valueError
        ("Some columns not found in table: " ++ String.intercalate ", "
          (cols.filter (fun col => decide (pyTrim (pyLower col) ∉
            meta.map (fun x => pyLower x.name))))))) := by
  simp only [addColumns]
  rw [if_neg h]

/-- `hscmetadata(table, release, magtype, baseurl)`: GET the metadata for
the specified catalog and table and decode the JSON column records.  Returns
the issued requests (in order) alongside the Python result. -/
def hscmetadata (net : Net) (table release magtype baseurl : String) :
    List Request × Except PyError (List MetaEntry) :=
  match cat2url table release magtype baseurl with
  | Except.error e => ([], Except.error (PyError.valueError e))
  | Except.ok caturl =>
    let url := caturl ++ "/metadata"
    let req : Request := { url := url, params := [] }
    let resp := net.fetch req
    let res : Except PyError (List MetaEntry) :=
      if 400 ≤ resp.status then Except.error (PyError.httpError resp.status)
      else Except.ok (net.parseMeta resp.text)
    ([req], res)

/-- `hscsearch(table, release, magtype, format, columns, baseurl, **kw)`:
do a general search of the HSC catalog.  Mirrors the notebook source:
reject an empty parameter dictionary, then an unsupported format, then an
illegal (table, release, magtype) combination; for `format="table"` request
csv; when a non-empty column list is given, fetch the table metadata (from
the default base URL, as the source does), reject unknown columns, and set
`data["columns"]` to the bracketed comma-join of the original names; finally
issue the search GET and decode by format.  Returns the issued requests (in
order) alongside the Python result. -/
def hscsearch (net : Net) (table release magtype format : String)
    (columns : Option (List String)) (baseurl : String)
    (kw : List (String × Value)) : List Request × Except PyError SearchResult :=
  let data := kw
  if data = [] then
    ([], Except.error (PyError.valueError "You must specify some parameters for search"))
  else if format ∉ (["csv", "votable", "json", "table"] : List String) then
    ([], Except.error (PyError.valueError "Bad value for format"))
  else
    let rformat := if format = "table" then "csv" else format
    match cat2url table release magtype baseurl with
    | Except.error e => ([], Except.error (PyError.valueError e))
    | Except.ok caturl =>
      let url := caturl ++ "." ++ rformat
      let colStep : List Request × Except PyError (List (String × Value)) :=
        match columns with
        | none => ([], Except.ok data)
        | some cols =>
          if cols = [] then ([], Except.ok data)
          else addColumns (hscmetadata net table release magtype hscapiurl) cols data
      match colStep with
      | (reqs, Except.error e) => (reqs, Except.error e)
      | (reqs, Except.ok data2) =>
        let req : Request := { url := url, params := data2 }
        let resp := net.fetch req
        let res : Except PyError SearchResult :=
          if 400 ≤ resp.status then Except.error (PyError.httpError resp.status)
          else if format = "json" then Except.ok (SearchResult.json resp.text)
          else if format = "table" then Except.ok (SearchResult.table (parseCsv resp.text))
          else Except.ok (SearchResult.text resp.text)
        (reqs ++ [req], res)

/-- `hsccone(ra, dec, radius, table, release, format, magtype, columns,
baseurl, **kw)`: cone search of the HSC catalog.  Copies the keyword
dictionary and writes the positional `ra`, `dec`, `radius` into the copy,
then delegates to `hscsearch`.  (The `verbose` flag of the source only
prints and is omitted.) -/
def hsccone (net : Net) (ra dec radius : ℚ) (table release format magtype : String)
    (columns : Option (List String)) (baseurl : String)
    (kw : List (String × Value)) : List Request × Except PyError SearchResult :=
  let data := dictSet (dictSet (dictSet kw "ra" (Value.num ra)) "dec" (Value.num dec))
    "radius" (Value.num radius)
  hscsearch net table release magtype format columns baseurl data

/-- `hcvmetadata(table, release, magtype, baseurl)`: identical body to
`hscmetadata` in the source (the HCV notebooks carry their own copy). -/
def hcvmetadata (net : Net) (table release magtype baseurl : String) :
    List Request × Except PyError (List MetaEntry) :=
  match cat2url table release magtype baseurl with
  | Except.error e => ([], Except.error (PyError.valueError e))
  | Except.ok caturl =>
    let url := caturl ++ "/metadata"
    let req : Request := { url := url, params := [] }
    let resp := net.fetch req
    let res : Except PyError (List MetaEntry) :=
      if 400 ≤ resp.status then Except.error (PyError.httpError resp.status)
      else Except.ok (net.parseMeta resp.text)
    ([req], res)

/-- `hcvsearch(table, release, magtype, format, columns, baseurl, **kw)`:
the HCV variant of the general search.  It differs from `hscsearch` in its
format set — only csv, votable and json, with no derived "table" format —
and correspondingly has no csv-remapping and no table-parsing branch. -/
def hcvsearch (net : Net) (table release magtype format : String)
    (columns : Option (List String)) (baseurl : String)
    (kw : List (String × Value)) : List Request × Except PyError SearchResult :=
  let data := kw
  if data = [] then
    ([], Except.error (PyError.valueError "You must specify some parameters for search"))
  else if format ∉ (["csv", "votable", "json"] : List String) then
    ([], Except.error (PyError.valueError "Bad value for format"))
  else
    match cat2url table release magtype baseurl with
    | Except.error e => ([], Except.error (PyError.valueError e))
    | Except.ok caturl =>
      let url := caturl ++ "." ++ format
      let colStep : List Request × Except PyError (List (String × Value)) :=
        match columns with
        | none => ([], Except.ok data)
        | some cols =>
          if cols = [] then ([], Except.ok data)
          else addColumns (hcvmetadata net table release magtype hscapiurl) cols data
      match colStep with
      | (reqs, Except.error e) => (reqs, Except.error e)
      | (reqs, Except.ok data2) =>
        let req : Request := { url := url, params := data2 }
        let resp := net.fetch req
        let res : Except PyError SearchResult :=
          if 400 ≤ resp.status then Except.error (PyError.httpError resp.status)
          else if format = "json" then Except.ok (SearchResult.json resp.text)
          else Except.ok (SearchResult.text resp.text)
        (reqs ++ [req], res)

/-- `hcvcone(ra, dec, radius, ...)`: the HCV cone search, delegating to
`hcvsearch` after writing ra/dec/radius into a copy of the keyword
dictionary. -/
def hcvcone (net : Net) (ra dec radius : ℚ) (table release format magtype : String)
    (columns : Option (List String)) (baseurl : String)
    (kw : List (String × Value)) : List Request × Except PyError SearchResult :=
  let data := dictSet (dictSet (dictSet kw "ra" (Value.num ra)) "dec" (Value.num dec))
    "radius" (Value.num radius)
  hcvsearch net table release magtype format columns baseurl data

/-- A concrete network oracle used to evaluate the helpers on explicit
inputs: metadata endpoints answer with three known columns, every other
endpoint answers with a two-row csv body. -/
def testNet : Net where
  fetch := fun req =>
    if req.params = [] then { status := 200, text := "meta-body" }
    else { status := 200, text := "a,b\n1,2\n3,4" }
  parseMeta := fun _ =>
    [{ name := "MatchID", type := "integer", description := "match id" },
     { name := "MatchRA", type := "float", description := "ra" },
     { name := "NumImages", type := "integer", description := "image count" }]

/-- When the combination is legal, `cat2url` builds the path from the base,
release and table, with the magtype appended exactly for the summary table. -/
theorem cat2url_ok (t r m b : String) (h : checklegal t r m = Except.ok ()) :
    cat2url t r m b =
      Except.ok (if t = "summary" then b ++ "/" ++ r ++ "/" ++ t ++ "/" ++ m
                 else b ++ "/" ++ r ++ "/" ++ t) := by
  simp only [cat2url, h]
  split <;> rfl

/-- A successful `cat2url` implies a successful `checklegal`. -/
theorem checklegal_ok_of_cat2url {t r m b u : String}
    (h : cat2url t r m b = Except.ok u) : checklegal t r m = Except.ok () := by
  cases hc : checklegal t r m with
  | ok v => cases v; rfl
  | error e => simp [cat2url, hc] at h

/-- Unfolding of `hscmetadata` when the URL resolves: it issues exactly the
one `/metadata` GET and decodes the body unless the status is an error. -/
theorem hscmetadata_of_cat2url {net : Net} {t r m b u : String}
    (h : cat2url t r m b = Except.ok u) :
    hscmetadata net t r m b =
      ([{ url := u ++ "/metadata", params := [] }],
       if 400 ≤ (net.fetch { url := u ++ "/metadata", params := [] }).status then
         Except.error (PyError.httpError (net.fetch { url := u ++ "/metadata", params := [] }).status)
       else Except.ok (net.parseMeta (net.fetch { url := u ++ "/metadata", params := [] }).text)) := by
  simp only [hscmetadata, h]

/-- Unfolding of `hcvmetadata` when the URL resolves. -/
theorem hcvmetadata_of_cat2url {net : Net} {t r m b u : String}
    (h : cat2url t r m b = Except.ok u) :
    hcvmetadata net t r m b =
      ([{ url := u ++ "/metadata", params := [] }],
       if 400 ≤ (net.fetch { url := u ++ "/metadata", params := [] }).status then
         Except.error (PyError.httpError (net.fetch { url := u ++ "/metadata", params := [] }).status)
       else Except.ok (net.parseMeta (net.fetch { url := u ++ "/metadata", params := [] }).text)) := by
  simp only [hcvmetadata, h]

/-- Setting a key makes it retrievable with the set value. -/
theorem dictGet_dictSet (d : List (String × Value)) (k : String) (v : Value) :
    dictGet (dictSet d k v) k = some v := by
  induction d with
  | nil => simp [dictSet, dictGet]
  | cons p rest ih =>
    by_cases h : p.1 = k <;> simp [dictSet, dictGet, h, ih]

/-- Setting a key leaves every other key unchanged. -/
theorem dictGet_dictSet_ne (d : List (String × Value)) (k k' : String) (v : Value)
    (h : k ≠ k') : dictGet (dictSet d k v) k' = dictGet d k' := by
  induction d with
  | nil => simp [dictSet, dictGet, h]
  | cons p rest ih =>
    by_cases hp : p.1 = k <;> simp [dictSet, dictGet, hp, h, ih]

/-- C3: a search called with an empty extra-filters dictionary fails with
the MissingParameters `ValueError`, with no request issued and no URL built,
whatever the other arguments (including a non-empty column allow-list) —
in both `hscsearch` and `hcvsearch`. -/
theorem search_empty_filters_missing_parameters (net : Net) (t r m f b : String)
    (cols : Option (List String)) :
    hscsearch net t r m f cols b [] =
      ([], Except.error (PyError.valueError "You must specify some parameters for search"))
    ∧ hcvsearch net t r m f cols b [] =
      ([], Except.error (PyError.valueError "You must specify some parameters for search")) :=
  ⟨rfl, rfl⟩

/-- C7: `hsccone(187.706, 12.391, 500/3600, table="summary", release="v3")`
(with the source's default format csv and default magtype magaper2) issues
exactly one request, whose URL is `{base}/v3/summary/magaper2.csv` and whose
parameters are ra=187.706, dec=12.391 and radius=500/3600 — the radius in
degrees, which the spec displays rounded as 0.1389. -/
theorem hsccone_example_url (net : Net) :
    (hsccone net 187.706 12.391 (500/3600) "summary" "v3" "csv" "magaper2"
        none hscapiurl []).1 =
      [{ url := hscapiurl ++ "/v3/summary/magaper2.csv",
         params := [("ra", Value.num 187.706), ("dec", Value.num 12.391),
                    ("radius", Value.num (500/3600))] }] := rfl

/-- C9: a cone search delegates to the general search with exactly the
caller's keyword dictionary updated with the positional ra, dec and radius
(overwriting any same-named keys, leaving all others untouched), in both the
HSC and HCV variants.  The embedding is pure, so the caller's own dictionary
is unchanged by construction, as the source's `kw.copy()` guarantees. -/
theorem cone_search_updates_filters (net : Net) (ra dec radius : ℚ)
    (t r f m : String) (cols : Option (List String)) (b : String)
    (kw : List (String × Value)) :
    hsccone net ra dec radius t r f m cols b kw =
      hscsearch net t r m f cols b
        (dictSet (dictSet (dictSet kw "ra" (Value.num ra)) "dec" (Value.num dec))
          "radius" (Value.num radius))
    ∧ hcvcone net ra dec radius t r f m cols b kw =
      hcvsearch net t r m f cols b
        (dictSet (dictSet (dictSet kw "ra" (Value.num ra)) "dec" (Value.num dec))
          "radius" (Value.num radius))
    ∧ dictGet (dictSet (dictSet (dictSet kw "ra" (Value.num ra)) "dec" (Value.num dec))
        "radius" (Value.num radius)) "ra" = some (Value.num ra)
    ∧ dictGet (dictSet (dictSet (dictSet kw "ra" (Value.num ra)) "dec" (Value.num dec))
        "radius" (Value.num radius)) "dec" = some (Value.num dec)
    ∧ dictGet (dictSet (dictSet (dictSet kw "ra" (Value.num ra)) "dec" (Value.num dec))
        "radius" (Value.num radius)) "radius" = some (Value.num radius)
    ∧ ∀ k, k ≠ "ra" → k ≠ "dec" → k ≠ "radius" →
        dictGet (dictSet (dictSet (dictSet kw "ra" (Value.num ra)) "dec" (Value.num dec))
          "radius" (Value.num radius)) k = dictGet kw k := by
  refine ⟨rfl, rfl, ?_, ?_, ?_, ?_⟩
  · rw [dictGet_dictSet_ne _ _ _ _ (by decide), dictGet_dictSet_ne _ _ _ _ (by decide),
      dictGet_dictSet]
  · rw [dictGet_dictSet_ne _ _ _ _ (by decide), dictGet_dictSet]
  · rw [dictGet_dictSet]
  · intro k hra hdec hrad
    rw [dictGet_dictSet_ne _ _ _ _ (Ne.symm hrad), dictGet_dictSet_ne _ _ _ _ (Ne.symm hdec),
      dictGet_dictSet_ne _ _ _ _ (Ne.symm hra)]

/-- Witness for C9: with a keyword dictionary that already binds `radius`
and an unrelated key `x`, the delegated dictionary holds the positional
values for ra/dec/radius and the untouched value for `x`. -/
theorem cone_search_updates_filters_witness :
    dictGet (dictSet (dictSet (dictSet [("radius", Value.num 99), ("x", Value.str "y")]
        "ra" (Value.num 1)) "dec" (Value.num 2)) "radius" (Value.num 3)) "radius" =
      some (Value.num 3)
    ∧ dictGet (dictSet (dictSet (dictSet [("radius", Value.num 99), ("x", Value.str "y")]
        "ra" (Value.num 1)) "dec" (Value.num 2)) "radius" (Value.num 3)) "x" =
      some (Value.str "y") := by
  have h := cone_search_updates_filters testNet 1 2 3 "summary" "v3" "csv" "magaper2"
    none hscapiurl [("radius", Value.num 99), ("x", Value.str "y")]
  exact ⟨h.2.2.2.2.1, (h.2.2.2.2.2 "x" (by decide) (by decide) (by decide)).trans (by decide)⟩

/-- C8: the validation checks of `hscsearch` run in a fixed order —
empty-filters first, then format, then table/release/magtype legality, then
column validation; in particular an empty filter dictionary wins over every
later error, a bad format wins over a bad combination, and the unknown-column
error is only reached when all earlier checks passed. -/
theorem hscsearch_validation_order (net : Net) (t r m f b : String)
    (cols : Option (List String)) (kw : List (String × Value)) :
    (kw = [] → hscsearch net t r m f cols b kw =
      ([], Except.error (PyError.valueError "You must specify some parameters for search")))
    ∧ (kw ≠ [] → f ∉ (["csv", "votable", "json", "table"] : List String) →
      hscsearch net t r m f cols b kw =
        ([], Except.error (PyError.valueError "Bad value for format")))
    ∧ (kw ≠ [] → f ∈ (["csv", "votable", "json", "table"] : List String) →
      ∀ e, cat2url t r m b = Except.error e →
        hscsearch net t r m f cols b kw = ([], Except.error (PyError.valueError e)))
    ∧ (kw ≠ [] → f ∈ (["csv", "votable", "json", "table"] : List String) →
      ∀ u, cat2url t r m b = Except.ok u →
      ∀ cl, cols = some cl → cl ≠ [] →
      ∀ mreqs meta, hscmetadata net t r m hscapiurl = (mreqs, Except.ok meta) →
      cl.filter (fun col => decide (pyTrim (pyLower col) ∉ meta.map (fun x => pyLower x.name))) ≠ [] →
        hscsearch net t r m f cols b kw =
          (mreqs, Except.error (PyError.valueError ("Some columns not found in table: " ++
            String.intercalate ", " (cl.filter (fun col =>
              decide (pyTrim (pyLower col) ∉ meta.map (fun x => pyLower x.name)))))))) := by
  refine ⟨?_, ?_, ?_, ?_⟩
  · intro hkw
    subst hkw
    rfl
  · intro hkw hf
    simp [hscsearch, hkw, hf]
  · intro hkw hf e he
    simp [hscsearch, hkw, hf, he]
  · intro hkw hf u hu cl hcols hcl mreqs meta hmeta hbad
    subst hcols
    simp [hscsearch, hkw, hf, hu, hcl, hmeta, addColumns_bad _ _ _ _ hbad]

/-- Witness for C8: a call with no filters, an unsupported format and an
illegal (release, table) combination fails with MissingParameters, and a
call with filters, an unsupported format and an illegal combination fails
with UnsupportedFormat. -/
theorem hscsearch_validation_order_witness :
    hscsearch testNet "hcv" "v2" "magaper2" "xml" none hscapiurl [] =
      ([], Except.error (PyError.valueError "You must specify some parameters for search"))
    ∧ hscsearch testNet "hcv" "v2" "magaper2" "xml" none hscapiurl [("ra", Value.num 1)] =
      ([], Except.error (PyError.valueError "Bad value for format")) :=
  ⟨(hscsearch_validation_order testNet "hcv" "v2" "magaper2" "xml" hscapiurl none []).1 rfl,
   (hscsearch_validation_order testNet "hcv" "v2" "magaper2" "xml" hscapiurl none
      [("ra", Value.num 1)]).2.1 (by decide) (by decide)⟩

/-- The response-processing step never produces a `ValueError`: it yields an
`httpError` on a failing status and an `ok` value otherwise. -/
theorem ite_http_ne_valueError {c : Prop} [Decidable c] {s : Nat}
    {x : Except PyError SearchResult} {msg : String}
    (hx : ∀ m2, x ≠ Except.error (PyError.valueError m2)) :
    (if c then Except.error (PyError.httpError s) else x) ≠
      Except.error (PyError.valueError msg) := by
  split
  · simp
  · exact hx msg

/-- A two-way chain of `ok` results is never a `ValueError`. -/
theorem ite_ok_chain2 {c1 : Prop} [Decidable c1] (a1 a2 : SearchResult) (m2 : String) :
    (if c1 then Except.ok a1 else Except.ok a2) ≠
      Except.error (PyError.valueError m2) := by
  split_ifs <;> simp

/-- A three-way chain of `ok` results is never a `ValueError`. -/
theorem ite_ok_chain3 {c1 c2 : Prop} [Decidable c1] [Decidable c2]
    (a1 a2 a3 : SearchResult) (m2 : String) :
    (if c1 then Except.ok a1 else if c2 then Except.ok a2 else Except.ok a3) ≠
      Except.error (PyError.valueError m2) := by
  split_ifs <;> simp

/-- Counterexample to C2 as stated: a search with an unknown requested
column raises the UnknownColumn `ValueError`, yet by then one HTTP request
(the metadata GET needed for column validation) has already been issued —
so not every validation error precedes all network calls. -/
theorem hscsearch_column_error_after_request_cx :
    hscsearch testNet "summary" "v3" "magaper2" "csv" (some ["bogus"]) hscapiurl
      [("ra", Value.num 1)] =
      ([{ url := hscapiurl ++ "/v3/summary/magaper2/metadata", params := [] }],
       Except.error (PyError.valueError "Some columns not found in table: bogus")) := by
  decide

/-- C2 (amended): whenever `hscsearch` or `hcvsearch` raises a validation
`ValueError`, the search request has not been issued: MissingParameters,
UnsupportedFormat and InvalidCombination are raised before any HTTP request
at all, and UnknownColumn is raised having issued exactly the one metadata
GET that its validation requires. -/
theorem search_validation_network_quiet (net : Net) (t r m f b : String)
    (cols : Option (List String)) (kw : List (String × Value)) :
    (∀ msg, (hscsearch net t r m f cols b kw).2 = Except.error (PyError.valueError msg) →
      (hscsearch net t r m f cols b kw).1 = [] ∨
      (∃ u2 cl meta,
        cat2url t r m hscapiurl = Except.ok u2 ∧ cols = some cl ∧
        hscmetadata net t r m hscapiurl =
          ([{ url := u2 ++ "/metadata", params := [] }], Except.ok meta) ∧
        (hscsearch net t r m f cols b kw).1 = [{ url := u2 ++ "/metadata", params := [] }] ∧
        msg = "Some columns not found in table: " ++ String.intercalate ", "
          (cl.filter (fun col => decide (pyTrim (pyLower col) ∉
            meta.map (fun x => pyLower x.name))))))
    ∧ (∀ msg, (hcvsearch net t r m f cols b kw).2 = Except.error (PyError.valueError msg) →
      (hcvsearch net t r m f cols b kw).1 = [] ∨
      (∃ u2 cl meta,
        cat2url t r m hscapiurl = Except.ok u2 ∧ cols = some cl ∧
        hcvmetadata net t r m hscapiurl =
          ([{ url := u2 ++ "/metadata", params := [] }], Except.ok meta) ∧
        (hcvsearch net t r m f cols b kw).1 = [{ url := u2 ++ "/metadata", params := [] }] ∧
        msg = "Some columns not found in table: " ++ String.intercalate ", "
          (cl.filter (fun col => decide (pyTrim (pyLower col) ∉
            meta.map (fun x => pyLower x.name)))))) := by
  constructor
  · intro msg h
    by_cases hkw : kw = []
    · left
      subst hkw
      rfl
    · by_cases hf : f ∈ (["csv", "votable", "json", "table"] : List String)
      · cases hu : cat2url t r m b with
        | error e =>
          left
          simp [hscsearch, hkw, hf, hu]
        | ok u =>
          have hclOK := checklegal_ok_of_cat2url hu
          obtain ⟨u2, hu2⟩ : ∃ x, cat2url t r m hscapiurl = Except.ok x :=
            ⟨_, cat2url_ok t r m hscapiurl hclOK⟩
          cases cols with
          | none =>
            exfalso
            revert h
            simp [hscsearch, hkw, hf, hu]
            split_ifs <;> simp
          | some cl =>
            by_cases hcl0 : cl = []
            · exfalso
              revert h
              subst hcl0
              simp [hscsearch, hkw, hf, hu]
              split_ifs <;> simp
            · have hmetaEq := @hscmetadata_of_cat2url net t r m hscapiurl u2 hu2
              by_cases hst : 400 ≤ (net.fetch { url := u2 ++ "/metadata", params := [] }).status
              · exfalso
                revert h
                simp [hscsearch, hkw, hf, hu, hcl0, hmetaEq, hst, addColumns_error]
              · by_cases hbad : cl.filter (fun col => decide (pyTrim (pyLower col) ∉
                    (net.parseMeta (net.fetch { url := u2 ++ "/metadata", params := [] }).text).map
                      (fun x => pyLower x.name))) = []
                · exfalso
                  revert h
                  simp [hscsearch, hkw, hf, hu, hcl0, hmetaEq, hst, addColumns_good _ _ _ _ hbad]
                  exact ite_http_ne_valueError (fun m2 => ite_ok_chain3 _ _ _ m2)
                · right
                  refine ⟨u2, cl,
                    net.parseMeta (net.fetch { url := u2 ++ "/metadata", params := [] }).text,
                    hu2, rfl, ?_, ?_, ?_⟩
                  · rw [hmetaEq, if_neg hst]
                  · simp [hscsearch, hkw, hf, hu, hcl0, hmetaEq, hst, addColumns_bad _ _ _ _ hbad]
                  · have hres : (hscsearch net t r m f (some cl) b kw).2 =
                        Except.error (PyError.valueError ("Some columns not found in table: " ++
                          String.intercalate ", " (cl.filter (fun col => decide (pyTrim (pyLower col) ∉
                            (net.parseMeta (net.fetch { url := u2 ++ "/metadata", params := [] }).text).map
                              (fun x => pyLower x.name)))))) := by
                      simp [hscsearch, hkw, hf, hu, hcl0, hmetaEq, hst, addColumns_bad _ _ _ _ hbad]
                    have hcomb := hres.symm.trans h
                    injection hcomb with h3
                    injection h3 with h4
                    exact h4.symm
      · left
        simp [hscsearch, hkw, hf]
  · intro msg h
    by_cases hkw : kw = []
    · left
      subst hkw
      rfl
    · by_cases hf : f ∈ (["csv", "votable", "json"] : List String)
      · cases hu : cat2url t r m b with
        | error e =>
          left
          simp [hcvsearch, hkw, hf, hu]
        | ok u =>
          have hclOK := checklegal_ok_of_cat2url hu
          obtain ⟨u2, hu2⟩ : ∃ x, cat2url t r m hscapiurl = Except.ok x :=
            ⟨_, cat2url_ok t r m hscapiurl hclOK⟩
          cases cols with
          | none =>
            exfalso
            revert h
            simp [hcvsearch, hkw, hf, hu]
            split_ifs <;> simp
          | some cl =>
            by_cases hcl0 : cl = []
            · exfalso
              revert h
              subst hcl0
              simp [hcvsearch, hkw, hf, hu]
              split_ifs <;> simp
            · have hmetaEq := @hcvmetadata_of_cat2url net t r m hscapiurl u2 hu2
              by_cases hst : 400 ≤ (net.fetch { url := u2 ++ "/metadata", params := [] }).status
              · exfalso
                revert h
                simp [hcvsearch, hkw, hf, hu, hcl0, hmetaEq, hst, addColumns_error]
              · by_cases hbad : cl.filter (fun col => decide (pyTrim (pyLower col) ∉
                    (net.parseMeta (net.fetch { url := u2 ++ "/metadata", params := [] }).text).map
                      (fun x => pyLower x.name))) = []
                · exfalso
                  revert h
                  simp [hcvsearch, hkw, hf, hu, hcl0, hmetaEq, hst, addColumns_good _ _ _ _ hbad]
                  exact ite_http_ne_valueError (fun m2 => ite_ok_chain2 _ _ m2)
                · right
                  refine ⟨u2, cl,
                    net.parseMeta (net.fetch { url := u2 ++ "/metadata", params := [] }).text,
                    hu2, rfl, ?_, ?_, ?_⟩
                  · rw [hmetaEq, if_neg hst]
                  · simp [hcvsearch, hkw, hf, hu, hcl0, hmetaEq, hst, addColumns_bad _ _ _ _ hbad]
                  · have hres : (hcvsearch net t r m f (some cl) b kw).2 =
                        Except.error (PyError.valueError ("Some columns not found in table: " ++
                          String.intercalate ", " (cl.filter (fun col => decide (pyTrim (pyLower col) ∉
                            (net.parseMeta (net.fetch { url := u2 ++ "/metadata", params := [] }).text).map
                              (fun x => pyLower x.name)))))) := by
                      simp [hcvsearch, hkw, hf, hu, hcl0, hmetaEq, hst, addColumns_bad _ _ _ _ hbad]
                    have hcomb := hres.symm.trans h
                    injection hcomb with h3
                    injection h3 with h4
                    exact h4.symm
      · left
        simp [hcvsearch, hkw, hf]

/-- Witness for C2 (amended): on a concrete unknown-column call, the theorem
yields that the request log is either empty or exactly the one metadata GET. -/
theorem search_validation_network_quiet_witness :
    (hscsearch testNet "summary" "v3" "magaper2" "csv" (some ["bogus"]) hscapiurl
      [("ra", Value.num 1)]).1 = [] ∨
    (hscsearch testNet "summary" "v3" "magaper2" "csv" (some ["bogus"]) hscapiurl
      [("ra", Value.num 1)]).1 =
      [{ url := hscapiurl ++ "/v3/summary/magaper2/metadata", params := [] }] := by
  rcases (search_validation_network_quiet testNet "summary" "v3" "magaper2" "csv"
      hscapiurl (some ["bogus"]) [("ra", Value.num 1)]).1
      "Some columns not found in table: bogus" (by decide) with h | ⟨u2, cl, meta, hu2, hcl, hmeta, hlog, hmsg⟩
  · exact Or.inl h
  · have hu2c : Except.ok (ε := String) u2 =
        Except.ok (hscapiurl ++ "/v3/summary/magaper2") := by
      rw [← hu2]
      rfl
    injection hu2c with hval
    subst hval
    exact Or.inr hlog

/-- C4: with a non-empty requested-column list, if some requested name —
lowercased and stripped of surrounding whitespace — matches no lowercased
metadata column name, `hscsearch` fails with the UnknownColumn `ValueError`
naming exactly the invalid entries, all together; if every requested name
matches some metadata name case-insensitively, column validation succeeds
and no `ValueError` of any kind is raised. -/
theorem hscsearch_unknown_columns (net : Net) (t r m f b : String)
    (cl : List String) (kw : List (String × Value))
    (mreqs : List Request) (meta : List MetaEntry)
    (hkw : kw ≠ [])
    (hf : f ∈ (["csv", "votable", "json", "table"] : List String))
    (hmeta : hscmetadata net t r m hscapiurl = (mreqs, Except.ok meta))
    (hcl : cl ≠ []) :
    ((∃ c ∈ cl, ∀ x ∈ meta, pyTrim (pyLower c) ≠ pyLower x.name) →
      (hscsearch net t r m f (some cl) b kw).2 =
        Except.error (PyError.valueError ("Some columns not found in table: " ++
          String.intercalate ", " (cl.filter (fun col =>
            decide (pyTrim (pyLower col) ∉ meta.map (fun x => pyLower x.name)))))))
    ∧ ((∀ c ∈ cl, ∃ x ∈ meta, pyTrim (pyLower c) = pyLower x.name) →
      ∀ msg, (hscsearch net t r m f (some cl) b kw).2 ≠
        Except.error (PyError.valueError msg)) := by
  have hu : cat2url t r m b =
      Except.ok (if t = "summary" then b ++ "/" ++ r ++ "/" ++ t ++ "/" ++ m
                 else b ++ "/" ++ r ++ "/" ++ t) := by
    refine cat2url_ok t r m b ?_
    cases hc : checklegal t r m with
    | ok v => cases v; rfl
    | error e =>
      rw [hscmetadata, cat2url, hc] at hmeta
      exact absurd (congrArg Prod.snd hmeta) (by simp)
  constructor
  · intro hex
    have hbad : cl.filter (fun col => decide (pyTrim (pyLower col) ∉
        meta.map (fun x => pyLower x.name))) ≠ [] := by
      rw [ne_eq, List.filter_eq_nil_iff]
      push_neg
      obtain ⟨c, hcmem, hcall⟩ := hex
      refine ⟨c, hcmem, ?_⟩
      simp only [decide_eq_true_eq, List.mem_map, not_exists, not_and]
      intro x hx hxeq
      exact hcall x hx hxeq.symm
    simp [hscsearch, hkw, hf, hu, hcl, hmeta, addColumns_bad _ _ _ _ hbad]
  · intro hall msg
    have hgood : cl.filter (fun col => decide (pyTrim (pyLower col) ∉
        meta.map (fun x => pyLower x.name))) = [] := by
      rw [List.filter_eq_nil_iff]
      intro c hcmem
      simp only [decide_eq_true_eq, List.mem_map, not_not]
      obtain ⟨x, hx, hxeq⟩ := hall c hcmem
      exact ⟨x, hx, hxeq.symm⟩
    simp [hscsearch, hkw, hf, hu, hcl, hmeta, addColumns_good _ _ _ _ hgood]
    exact ite_http_ne_valueError (fun m2 => ite_ok_chain3 _ _ _ m2)

/-- Witness for C4: requesting `["MatchId ", "bogus1", "Bogus2"]` against
metadata columns MatchID/MatchRA/NumImages fails naming exactly bogus1 and
Bogus2 (the case- and whitespace-insensitive `MatchId ` is accepted). -/
theorem hscsearch_unknown_columns_witness :
    (hscsearch testNet "summary" "v3" "magaper2" "csv"
      (some ["MatchId ", "bogus1", "Bogus2"]) hscapiurl [("ra", Value.num 1)]).2 =
      Except.error (PyError.valueError "Some columns not found in table: bogus1, Bogus2") := by
  have h := (hscsearch_unknown_columns testNet "summary" "v3" "magaper2" "csv" hscapiurl
    ["MatchId ", "bogus1", "Bogus2"] [("ra", Value.num 1)]
    [{ url := hscapiurl ++ "/v3/summary/magaper2/metadata", params := [] }]
    [{ name := "MatchID", type := "integer", description := "match id" },
     { name := "MatchRA", type := "float", description := "ra" },
     { name := "NumImages", type := "integer", description := "image count" }]
    (by decide) (by decide) (by decide) (by decide)).1 (by decide)
  exact h.trans (by decide)

/-- C10: requested column names are normalized only for validation, never
for serialization — when validation passes (even when requested names differ
from the metadata names in case or surrounding whitespace), the search GET
carries a `columns` parameter that is the bracketed comma-join of the
original requested strings, unchanged, after the single metadata GET. -/
theorem hscsearch_columns_param_preserves_case (net : Net) (t r m f b : String)
    (cl : List String) (kw : List (String × Value))
    (u u2 : String) (meta : List MetaEntry)
    (hkw : kw ≠ [])
    (hf : f ∈ (["csv", "votable", "json", "table"] : List String))
    (hu : cat2url t r m b = Except.ok u)
    (hu2 : cat2url t r m hscapiurl = Except.ok u2)
    (hmeta : hscmetadata net t r m hscapiurl =
      ([{ url := u2 ++ "/metadata", params := [] }], Except.ok meta))
    (hcl : cl ≠ [])
    (hgood : ∀ c ∈ cl, ∃ x ∈ meta, pyTrim (pyLower c) = pyLower x.name) :
    (hscsearch net t r m f (some cl) b kw).1 =
      [{ url := u2 ++ "/metadata", params := [] },
       { url := u ++ "." ++ (if f = "table" then "csv" else f),
         params := dictSet kw "columns"
           (Value.str ("[" ++ String.intercalate "," cl ++ "]")) }] := by
  have hnil : cl.filter (fun col => decide (pyTrim (pyLower col) ∉
      meta.map (fun x => pyLower x.name))) = [] := by
    rw [List.filter_eq_nil_iff]
    intro c hcmem
    simp only [decide_eq_true_eq, List.mem_map, not_not]
    obtain ⟨x, hx, hxeq⟩ := hgood c hcmem
    exact ⟨x, hx, hxeq.symm⟩
  simp [hscsearch, hkw, hf, hu, hcl, hmeta, addColumns_good _ _ _ _ hnil]

/-- Witness for C10: requesting `[" MatchId", "NUMIMAGES "]` (wrong case,
stray whitespace) passes validation against MatchID/NumImages, and the
search request's `columns` parameter is `[ MatchId,NUMIMAGES ]` — the
original strings joined unchanged. -/
theorem hscsearch_columns_param_preserves_case_witness :
    (hscsearch testNet "summary" "v3" "magaper2" "csv"
      (some [" MatchId", "NUMIMAGES "]) hscapiurl [("ra", Value.num 1)]).1 =
      [{ url := hscapiurl ++ "/v3/summary/magaper2/metadata", params := [] },
       { url := hscapiurl ++ "/v3/summary/magaper2" ++ ".csv",
         params := [("ra", Value.num 1),
                    ("columns", Value.str "[ MatchId,NUMIMAGES ]")] }] := by
  have h := hscsearch_columns_param_preserves_case testNet "summary" "v3" "magaper2" "csv"
    hscapiurl [" MatchId", "NUMIMAGES "] [("ra", Value.num 1)]
    (hscapiurl ++ "/v3/summary/magaper2") (hscapiurl ++ "/v3/summary/magaper2")
    [{ name := "MatchID", type := "integer", description := "match id" },
     { name := "MatchRA", type := "float", description := "ra" },
     { name := "NumImages", type := "integer", description := "image count" }]
    (by decide) (by decide) (by decide) (by decide) (by decide) (by decide) (by decide)
  exact h.trans (by decide)

/-- Rebracketing of the URL suffix: appending `"."` then `"csv"` is
appending `".csv"`. -/
theorem append_dot_csv (u : String) : u ++ "." ++ "csv" = u ++ ".csv" := by
  rw [String.append_assoc]
  rfl

/-- C5: `hscsearch` with `format="table"` issues exactly the requests of the
same call with `format="csv"` (so the search URL carries the csv suffix, as
the log's last entry shows), and when the csv call returns body `txt`, the
table call returns the parsed `parseCsv txt` — in particular with the same
row count as parsing the raw delimited-text response directly. -/
theorem hscsearch_table_format_refinement (net : Net) (t r m b : String)
    (cols : Option (List String)) (kw : List (String × Value)) :
    (hscsearch net t r m "table" cols b kw).1 = (hscsearch net t r m "csv" cols b kw).1
    ∧ (∀ txt, (hscsearch net t r m "csv" cols b kw).2 = Except.ok (SearchResult.text txt) →
        (hscsearch net t r m "table" cols b kw).2 =
          Except.ok (SearchResult.table (parseCsv txt)))
    ∧ (∀ tab, (hscsearch net t r m "table" cols b kw).2 = Except.ok (SearchResult.table tab) →
        ∀ u, cat2url t r m b = Except.ok u →
          ∃ ps, ((hscsearch net t r m "table" cols b kw).1).getLast? =
            some { url := u ++ ".csv", params := ps })
    ∧ (∀ tab txt,
        (hscsearch net t r m "table" cols b kw).2 = Except.ok (SearchResult.table tab) →
        (hscsearch net t r m "csv" cols b kw).2 = Except.ok (SearchResult.text txt) →
          tab.rows.length = (parseCsv txt).rows.length) := by
  by_cases hkw : kw = []
  · subst hkw
    refine ⟨rfl, ?_, ?_, ?_⟩
    · intro txt hcsv
      simp [hscsearch] at hcsv
    · intro tab htab
      simp [hscsearch] at htab
    · intro tab txt htab hcsv
      simp [hscsearch] at htab
  · cases hu : cat2url t r m b with
    | error e =>
      refine ⟨?_, ?_, ?_, ?_⟩
      · simp [hscsearch, hkw, hu]
      · intro txt hcsv
        revert hcsv
        simp [hscsearch, hkw, hu]
      · intro tab htab
        revert htab
        simp [hscsearch, hkw, hu]
      · intro tab txt htab hcsv
        revert htab
        simp [hscsearch, hkw, hu]
    | ok u =>
      have hclOK := checklegal_ok_of_cat2url hu
      obtain ⟨u2, hu2⟩ : ∃ x, cat2url t r m hscapiurl = Except.ok x :=
        ⟨_, cat2url_ok t r m hscapiurl hclOK⟩
      have hmetaEq := @hscmetadata_of_cat2url net t r m hscapiurl u2 hu2
      cases cols with
      | none =>
        refine ⟨?_, ?_, ?_, ?_⟩
        · simp [hscsearch, hkw, hu]
        · intro txt hcsv
          by_cases hst : 400 ≤ (net.fetch { url := u ++ "." ++ "csv", params := kw }).status
          · revert hcsv
            simp [hscsearch, hkw, hu, hst]
          · revert hcsv
            simp [hscsearch, hkw, hu, hst]
            intro h
            rw [h]
        · intro tab htab u' hu'
          have huu : u' = u := by
            injection hu' with h2
            exact h2.symm
          subst huu
          exact ⟨kw, by simp [hscsearch, hkw, hu, append_dot_csv]⟩
        · intro tab txt htab hcsv
          by_cases hst : 400 ≤ (net.fetch { url := u ++ "." ++ "csv", params := kw }).status
          · revert htab
            simp [hscsearch, hkw, hu, hst]
          · revert htab hcsv
            simp [hscsearch, hkw, hu, hst]
            intro h1 h2
            rw [← h1, h2]
      | some cl =>
        by_cases hcl0 : cl = []
        · subst hcl0
          refine ⟨?_, ?_, ?_, ?_⟩
          · simp [hscsearch, hkw, hu]
          · intro txt hcsv
            by_cases hst : 400 ≤ (net.fetch { url := u ++ "." ++ "csv", params := kw }).status
            · revert hcsv
              simp [hscsearch, hkw, hu, hst]
            · revert hcsv
              simp [hscsearch, hkw, hu, hst]
              intro h
              rw [h]
          · intro tab htab u' hu'
            have huu : u' = u := by
              injection hu' with h2
              exact h2.symm
            subst huu
            exact ⟨kw, by simp [hscsearch, hkw, hu, append_dot_csv]⟩
          · intro tab txt htab hcsv
            by_cases hst : 400 ≤ (net.fetch { url := u ++ "." ++ "csv", params := kw }).status
            · revert htab
              simp [hscsearch, hkw, hu, hst]
            · revert htab hcsv
              simp [hscsearch, hkw, hu, hst]
              intro h1 h2
              rw [← h1, h2]
        · by_cases hst2 : 400 ≤ (net.fetch { url := u2 ++ "/metadata", params := [] }).status
          · refine ⟨?_, ?_, ?_, ?_⟩
            · simp [hscsearch, hkw, hu, hcl0, hmetaEq, hst2, addColumns_error]
            · intro txt hcsv
              revert hcsv
              simp [hscsearch, hkw, hu, hcl0, hmetaEq, hst2, addColumns_error]
            · intro tab htab
              revert htab
              simp [hscsearch, hkw, hu, hcl0, hmetaEq, hst2, addColumns_error]
            · intro tab txt htab hcsv
              revert htab
              simp [hscsearch, hkw, hu, hcl0, hmetaEq, hst2, addColumns_error]
          · by_cases hbad : cl.filter (fun col => decide (pyTrim (pyLower col) ∉
                (net.parseMeta (net.fetch { url := u2 ++ "/metadata", params := [] }).text).map
                  (fun x => pyLower x.name))) = []
            · refine ⟨?_, ?_, ?_, ?_⟩
              · simp [hscsearch, hkw, hu, hcl0, hmetaEq, hst2, addColumns_good _ _ _ _ hbad]
              · intro txt hcsv
                by_cases hst : 400 ≤ (net.fetch { url := u ++ "." ++ "csv", params := dictSet kw "columns" (Value.str ("[" ++ String.intercalate "," cl ++ "]")) }).status
                · revert hcsv
                  simp [hscsearch, hkw, hu, hcl0, hmetaEq, hst2,
                    addColumns_good _ _ _ _ hbad, hst]
                · revert hcsv
                  simp [hscsearch, hkw, hu, hcl0, hmetaEq, hst2,
                    addColumns_good _ _ _ _ hbad, hst]
                  intro h
                  rw [h]
              · intro tab htab u' hu'
                have huu : u' = u := by
                  injection hu' with h2
                  exact h2.symm
                subst huu
                refine ⟨dictSet kw "columns"
                  (Value.str ("[" ++ String.intercalate "," cl ++ "]")), ?_⟩
                simp [hscsearch, hkw, hu, hcl0, hmetaEq, hst2,
                  addColumns_good _ _ _ _ hbad, append_dot_csv]
              · intro tab txt htab hcsv
                by_cases hst : 400 ≤ (net.fetch { url := u ++ "." ++ "csv", params := dictSet kw "columns" (Value.str ("[" ++ String.intercalate "," cl ++ "]")) }).status
                · revert htab
                  simp [hscsearch, hkw, hu, hcl0, hmetaEq, hst2,
                    addColumns_good _ _ _ _ hbad, hst]
                · revert htab hcsv
                  simp [hscsearch, hkw, hu, hcl0, hmetaEq, hst2,
                    addColumns_good _ _ _ _ hbad, hst]
                  intro h1 h2
                  rw [← h1, h2]
            · refine ⟨?_, ?_, ?_, ?_⟩
              · simp [hscsearch, hkw, hu, hcl0, hmetaEq, hst2, addColumns_bad _ _ _ _ hbad]
              · intro txt hcsv
                revert hcsv
                simp [hscsearch, hkw, hu, hcl0, hmetaEq, hst2, addColumns_bad _ _ _ _ hbad]
              · intro tab htab
                revert htab
                simp [hscsearch, hkw, hu, hcl0, hmetaEq, hst2, addColumns_bad _ _ _ _ hbad]
              · intro tab txt htab hcsv
                revert htab
                simp [hscsearch, hkw, hu, hcl0, hmetaEq, hst2, addColumns_bad _ _ _ _ hbad]

/-- Witness for C5: on a concrete cone-free search against the test network,
the csv call returns the raw body and the table call returns its parse with
two rows, and the request log's last entry carries the `.csv` suffix. -/
theorem hscsearch_table_format_refinement_witness :
    (hscsearch testNet "summary" "v3" "magaper2" "table" none hscapiurl
      [("ra", Value.num 1)]).2 =
      Except.ok (SearchResult.table (parseCsv "a,b\n1,2\n3,4"))
    ∧ ((hscsearch testNet "summary" "v3" "magaper2" "table" none hscapiurl
      [("ra", Value.num 1)]).1).getLast? =
      some { url := hscapiurl ++ "/v3/summary/magaper2" ++ ".csv",
             params := [("ra", Value.num 1)] } := by
  have h := hscsearch_table_format_refinement testNet "summary" "v3" "magaper2" hscapiurl
    none [("ra", Value.num 1)]
  constructor
  · exact h.2.1 "a,b\n1,2\n3,4" (by decide)
  · decide

/-- The message of a failing `checklegal` is never the format message:
the release/magtype messages are fixed strings and the table message is
strictly longer than `"Bad value for format"` whatever the release string. -/
theorem checklegal_error_ne_format {t r m e : String}
    (h : checklegal t r m = Except.error e) : e ≠ "Bad value for format" := by
  have hlen : ∀ (x y : String),
      ("Bad value for table (for " ++ x ++ " must be one of " ++ y ++ ")") ≠
        "Bad value for format" := by
    intro x y heq
    have hl := congrArg String.length heq
    simp only [String.length_append] at hl
    have e1 : ("Bad value for table (for " : String).length = 25 := by decide
    have e2 : (" must be one of " : String).length = 16 := by decide
    have e3 : (")" : String).length = 1 := by decide
    have e4 : ("Bad value for format" : String).length = 20 := by decide
    rw [e1, e2, e3, e4] at hl
    omega
  simp only [checklegal] at h
  split_ifs at h <;>
    first
    | (cases h <;> decide)
    | (cases h <;> exact hlen _ _)

/-- A failing `cat2url` fails exactly with its `checklegal` message. -/
theorem checklegal_error_of_cat2url {t r m b e : String}
    (hu : cat2url t r m b = Except.error e) : checklegal t r m = Except.error e := by
  cases hc : checklegal t r m with
  | ok v =>
    cases v
    exact absurd ((cat2url_ok t r m b hc).symm.trans hu)
      (fun hcon => Except.noConfusion hcon)
  | error e2 =>
    have h2 : cat2url t r m b = Except.error e2 := by
      simp only [cat2url, hc]
    rw [h2] at hu
    injection hu with he
    exact congrArg Except.error he

/-- The unknown-column message is never the format message (it is longer). -/
theorem colmsg_ne_format (j : String) :
    ("Some columns not found in table: " ++ j) ≠ "Bad value for format" := by
  intro heq
  have hl := congrArg String.length heq
  rw [String.length_append] at hl
  have e1 : ("Some columns not found in table: " : String).length = 33 := by decide
  have e2 : ("Bad value for format" : String).length = 20 := by decide
  rw [e1, e2] at hl
  omega

/-- Counterexample to C6 as stated: the claim's format enumeration includes
the derived "table" format, but `hcvsearch` rejects `format="table"` with
the UnsupportedFormat `ValueError` — "table" does not pass the format check
in both search functions. -/
theorem hcvsearch_table_format_rejected_cx :
    hcvsearch testNet "hcvsummary" "v3" "magaper2" "table" none hscapiurl
      [("ra", Value.num 1)] =
      ([], Except.error (PyError.valueError "Bad value for format")) := by
  decide

/-- C6 (amended): each search function rejects, before any network I/O,
every format outside its own enumeration — {csv, votable, json, table} for
`hscsearch` but only {csv, votable, json} for `hcvsearch` (the derived
"table" format exists only in the HSC variant) — provided the earlier
empty-filters check passed; and every format inside the respective
enumeration passes that function's format check (the UnsupportedFormat
error can then never be raised). -/
theorem search_format_validation (net : Net) (t r m f b : String)
    (cols : Option (List String)) (kw : List (String × Value)) :
    (kw ≠ [] → f ∉ (["csv", "votable", "json", "table"] : List String) →
      hscsearch net t r m f cols b kw =
        ([], Except.error (PyError.valueError "Bad value for format")))
    ∧ (kw ≠ [] → f ∉ (["csv", "votable", "json"] : List String) →
      hcvsearch net t r m f cols b kw =
        ([], Except.error (PyError.valueError "Bad value for format")))
    ∧ (f ∈ (["csv", "votable", "json", "table"] : List String) →
      (hscsearch net t r m f cols b kw).2 ≠
        Except.error (PyError.valueError "Bad value for format"))
    ∧ (f ∈ (["csv", "votable", "json"] : List String) →
      (hcvsearch net t r m f cols b kw).2 ≠
        Except.error (PyError.valueError "Bad value for format")) := by
  refine ⟨?_, ?_, ?_, ?_⟩
  · intro hkw hf
    simp [hscsearch, hkw, hf]
  · intro hkw hf
    simp [hcvsearch, hkw, hf]
  · intro hf hcontra
    by_cases hkw : kw = []
    · subst hkw
      have hmiss : hscsearch net t r m f cols b [] =
          ([], Except.error (PyError.valueError "You must specify some parameters for search")) :=
        rfl
      rw [hmiss] at hcontra
      simp at hcontra
    · cases hu : cat2url t r m b with
      | error e =>
        have hcl_err := checklegal_error_of_cat2url hu
        revert hcontra
        simp [hscsearch, hkw, hf, hu]
        exact fun hcontra => checklegal_error_ne_format hcl_err hcontra
      | ok u =>
        have hclOK := checklegal_ok_of_cat2url hu
        obtain ⟨u2, hu2⟩ : ∃ x, cat2url t r m hscapiurl = Except.ok x :=
          ⟨_, cat2url_ok t r m hscapiurl hclOK⟩
        cases cols with
        | none =>
          revert hcontra
          simp [hscsearch, hkw, hf, hu]
          exact ite_http_ne_valueError (fun m2 => ite_ok_chain3 _ _ _ m2)
        | some cl =>
          by_cases hcl0 : cl = []
          · subst hcl0
            revert hcontra
            simp [hscsearch, hkw, hf, hu]
            exact ite_http_ne_valueError (fun m2 => ite_ok_chain3 _ _ _ m2)
          · have hmetaEq := @hscmetadata_of_cat2url net t r m hscapiurl u2 hu2
            by_cases hst : 400 ≤ (net.fetch { url := u2 ++ "/metadata", params := [] }).status
            · revert hcontra
              simp [hscsearch, hkw, hf, hu, hcl0, hmetaEq, hst, addColumns_error]
            · by_cases hbad : cl.filter (fun col => decide (pyTrim (pyLower col) ∉
                  (net.parseMeta (net.fetch { url := u2 ++ "/metadata", params := [] }).text).map
                    (fun x => pyLower x.name))) = []
              · revert hcontra
                simp [hscsearch, hkw, hf, hu, hcl0, hmetaEq, hst, addColumns_good _ _ _ _ hbad]
                exact ite_http_ne_valueError (fun m2 => ite_ok_chain3 _ _ _ m2)
              · revert hcontra
                simp [hscsearch, hkw, hf, hu, hcl0, hmetaEq, hst, addColumns_bad _ _ _ _ hbad]
                exact fun hcontra => colmsg_ne_format _ hcontra
  · intro hf hcontra
    by_cases hkw : kw = []
    · subst hkw
      have hmiss : hcvsearch net t r m f cols b [] =
          ([], Except.error (PyError.valueError "You must specify some parameters for search")) :=
        rfl
      rw [hmiss] at hcontra
      simp at hcontra
    · cases hu : cat2url t r m b with
      | error e =>
        have hcl_err := checklegal_error_of_cat2url hu
        revert hcontra
        simp [hcvsearch, hkw, hf, hu]
        exact fun hcontra => checklegal_error_ne_format hcl_err hcontra
      | ok u =>
        have hclOK := checklegal_ok_of_cat2url hu
        obtain ⟨u2, hu2⟩ : ∃ x, cat2url t r m hscapiurl = Except.ok x :=
          ⟨_, cat2url_ok t r m hscapiurl hclOK⟩
        cases cols with
        | none =>
          revert hcontra
          simp [hcvsearch, hkw, hf, hu]
          exact ite_http_ne_valueError (fun m2 => ite_ok_chain2 _ _ m2)
        | some cl =>
          by_cases hcl0 : cl = []
          · subst hcl0
            revert hcontra
            simp [hcvsearch, hkw, hf, hu]
            exact ite_http_ne_valueError (fun m2 => ite_ok_chain2 _ _ m2)
          · have hmetaEq := @hcvmetadata_of_cat2url net t r m hscapiurl u2 hu2
            by_cases hst : 400 ≤ (net.fetch { url := u2 ++ "/metadata", params := [] }).status
            · revert hcontra
              simp [hcvsearch, hkw, hf, hu, hcl0, hmetaEq, hst, addColumns_error]
            · by_cases hbad : cl.filter (fun col => decide (pyTrim (pyLower col) ∉
                  (net.parseMeta (net.fetch { url := u2 ++ "/metadata", params := [] }).text).map
                    (fun x => pyLower x.name))) = []
              · revert hcontra
                simp [hcvsearch, hkw, hf, hu, hcl0, hmetaEq, hst, addColumns_good _ _ _ _ hbad]
                exact ite_http_ne_valueError (fun m2 => ite_ok_chain2 _ _ m2)
              · revert hcontra
                simp [hcvsearch, hkw, hf, hu, hcl0, hmetaEq, hst, addColumns_bad _ _ _ _ hbad]
                exact fun hcontra => colmsg_ne_format _ hcontra

/-- Witness for C6 (amended): the format "xml" is rejected by `hscsearch`
before any request, and the format "csv" (inside both enumerations) never
triggers the UnsupportedFormat error in `hcvsearch`. -/
theorem search_format_validation_witness :
    hscsearch testNet "summary" "v3" "magaper2" "xml" none hscapiurl
      [("dec", Value.num 2)] =
      ([], Except.error (PyError.valueError "Bad value for format"))
    ∧ (hcvsearch testNet "hcvsummary" "v3" "magaper2" "csv" none hscapiurl
      [("dec", Value.num 2)]).2 ≠
      Except.error (PyError.valueError "Bad value for format") :=
  ⟨(search_format_validation testNet "summary" "v3" "magaper2" "xml" hscapiurl none
      [("dec", Value.num 2)]).1 (by decide) (by decide),
   (search_format_validation testNet "hcvsummary" "v3" "magaper2" "csv" hscapiurl none
      [("dec", Value.num 2)]).2.2.2 (by decide)⟩

end STScI
